import Mathlib

/-!
# Verification of the funding-proposal generation orchestrator

Shallow embedding of `src/main.py` (Gemini Funding Proposal Generator).
External collaborators (the HTTP backend reached by `requests.post`, the
UTF-8 decoder of the uploaded file, and the PDF renderer `fpdf`) are
modelled as function parameters; everything else is translated directly
from the source.
-/

namespace Proposal

/-- Result of one outbound `requests.post` call to a model endpoint, as the
code in `call_gemini_direct` classifies it:
* `ok t` — HTTP 200 and the JSON path `candidates[0].content.parts[0].text`
  yields `t`;
* `okNoText` — HTTP 200 but the extraction raises `KeyError`/`IndexError`
  (blocked or empty content);
* `status429` — HTTP 429 (rate limit);
* `status404` — HTTP 404 (model not found);
* `statusOther code body` — any other HTTP status, with the response text;
* `exn msg` — `requests.post` (or response handling) raised an exception. -/
inductive AttemptResult where
  | ok (text : String)
  | okNoText
  | status429
  | status404
  | statusOther (code : Nat) (body : String)
  | exn (msg : String)
deriving DecidableEq, Repr

/-- A backend is the environment of outbound HTTP calls: the `k`-th outbound
call of the invocation, against model `m`, with prompt `p`, returns
`backend k m p`.  (The real code performs the calls sequentially, so a
deterministic function of the call index suffices.) -/
def Backend : Type := Nat → String → String → AttemptResult

/-- The hard-coded candidate list of `call_gemini_direct`:
`models = ["gemini-1.5-flash", "gemini-1.5-pro", "gemini-pro"]`. -/
def models : List String := ["gemini-1.5-flash", "gemini-1.5-pro", "gemini-pro"]

/-- One recorded outbound generation attempt: which model was called and
with which prompt. -/
structure Attempt where
  model : String
  prompt : String
deriving DecidableEq, Repr

/-- The `last_error` value stored by `call_gemini_direct` after a failed
attempt on `model`, following each branch of the loop body:
* 200 with no text: `f"Model {model} returned empty response."`
* 429: `"Rate Limit Exceeded"`
* 404: `f"Model {model} not found"`
* other status: `f"HTTP {status_code}: {text}"`
* exception: `str(e)`.
(The `ok` case never stores an error; the loop returns instead.) -/
def attemptError (model : String) : AttemptResult → String
  | .ok _ => ""
  | .okNoText => "Model " ++ model ++ " returned empty response."
  | .status429 => "Rate Limit Exceeded"
  | .status404 => "Model " ++ model ++ " not found"
  | .statusOther code body => "HTTP " ++ toString code ++ ": " ++ body
  | .exn msg => msg

/-- Does the attempt return text (HTTP 200 with extractable content)? -/
def isOk : AttemptResult → Bool
  | .ok _ => true
  | _ => false

/-- The text of a successful attempt (`""` on the never-used failure cases). -/
def okText : AttemptResult → String
  | .ok t => t
  | _ => ""

/-- Final result of `call_gemini_direct`: either the returned text, or the
`Exception(f"All models failed. Last error: {last_error}")` it raises. -/
inductive CallResult where
  | success (text : String)
  | allFailed (message : String)
deriving DecidableEq, Repr

/-- The `for model in models:` loop of `call_gemini_direct`, with the list
of attempts it performs made explicit.  State threaded through: the
remaining candidate list, the current `last_error`, and the index of the
next outbound call.  On a 200-with-text result the text is returned at
once; every other outcome overwrites `last_error` and continues with the
next candidate (a 429 additionally sleeps 1 s, which has no bearing on the
returned value).  When the list is exhausted the aggregated exception is
raised. -/
def loopGo (backend : Backend) (prompt : String) :
    List String → String → Nat → List Attempt × CallResult
  | [], lastError, _ =>
      ([], .allFailed ("All models failed. Last error: " ++ lastError))
  | m :: rest, _, k =>
      let r := backend k m prompt
      if isOk r then
        ([⟨m, prompt⟩], .success (okText r))
      else
        let p := loopGo backend prompt rest (attemptError m r) (k + 1)
        (⟨m, prompt⟩ :: p.1, p.2)

/-- Embedding of `call_gemini_direct(prompt)`: runs the loop over the
fixed `models` list with `last_error = ""`, returning the attempt trace
and the result. -/
def call_gemini_direct (backend : Backend) (prompt : String) :
    List Attempt × CallResult :=
  loopGo backend prompt models "" 0

/-- The outbound generation attempts an invocation of
`call_gemini_direct` performs. -/
def attempts (backend : Backend) (prompt : String) : List Attempt :=
  (call_gemini_direct backend prompt).1

/-- The value `call_gemini_direct` returns (or the exception it raises). -/
def callResult (backend : Backend) (prompt : String) : CallResult :=
  (call_gemini_direct backend prompt).2

/-! ## The `/generate-proposal/` endpoint (`generate_proposal`) -/

/-- Python slicing `s[:n]` on a `str`: the first `n` code points. -/
def pySlice (s : String) (n : Nat) : String := ⟨s.data.take n⟩

/-- Everything of the f-string template of `generate_proposal` that comes
before `{content[:10000]}`, byte for byte (the template is a triple-quoted
string whose lines are indented by four spaces; two lines end in a
trailing space). -/
def promptHead : String :=
  "\n    You are a professional grant writer. \n    Take the following feasibility report and rewrite it into a formal Funding Proposal.\n    Keep it strictly text-based (no markdown bold/italic) for PDF compatibility.\n    \n    Sections:\n    1. EXECUTIVE SUMMARY\n    2. PROJECT BACKGROUND\n    3. OBJECTIVES\n    4. METHODOLOGY\n    5. BUDGET OVERVIEW\n    6. EXPECTED OUTCOMES\n    \n    REPORT:\n    "

/-- Everything of the template after `{content[:10000]}`: a space, a
newline, and the four spaces of indentation before the closing quotes. -/
def promptTail : String := " \n    "

/-- The prompt `generate_proposal` builds: the fixed template with
`content[:10000]` interpolated. -/
def buildPrompt (content : String) : String :=
  promptHead ++ pySlice content 10000 ++ promptTail

/-- Character-level effect of encoding a `str` as latin-1 with
`errors="replace"` and decoding it back: a code point in the Latin-1
range (at most 255) encodes to itself; any other code point is replaced
by a question-mark byte, which decodes back to the question-mark
character. -/
def sanitizeChar (c : Char) : Char :=
  if c.toNat ≤ 255 then c else '?'

/-- The `safe_text` computed by `generate_pdf_from_text`: the latin-1
encode-with-replacement / decode round trip applied to `text_content`. -/
def latin1Sanitize (s : String) : String := ⟨s.data.map sanitizeChar⟩

/-- Embedding of `generate_pdf_from_text(text_content)`: sanitizes the
text and hands it to the PDF renderer.  The renderer (the `multi_cell`
and `output` calls of the fpdf library) is external, modelled as the
parameter `render`. -/
def generate_pdf_from_text (render : String → List Nat)
    (text_content : String) : List Nat :=
  render (latin1Sanitize text_content)

/-- Python truthiness of the optional `report_text` query parameter:
`None` and `""` are falsy. -/
def truthyStr : Option String → Bool
  | none => false
  | some s => !s.isEmpty

/-- The content-extraction step of `generate_proposal` (`# 1. Extract
Content`).  `file` is the optional uploaded file's raw bytes; `decode`
models Python's `bytes.decode("utf-8")`, returning `none` when it raises
`UnicodeDecodeError`.  Branch structure of the source: `if file:` use the
decoded file (a decode failure is caught and rejected), `elif
report_text:` use the raw text, `else:` reject with HTTP 400.  `none`
means the request is rejected with a 400 input error. -/
def extractContent (decode : List Nat → Option String)
    (report_text : Option String) (file : Option (List Nat)) :
    Option String :=
  match file with
  | some bs => decode bs
  | none => if truthyStr report_text then some (report_text.getD "") else none

/-- Response of the `/generate-proposal/` endpoint:
* `pdf bytes` — HTTP 200 with the rendered document as an attachment;
* `inputError` — HTTP 400 raised in the content-extraction step, before
  any generation call;
* `generationError detail` — HTTP 500 with
  `f"AI Generation Failed: {str(e)}"` when `call_gemini_direct` raises. -/
inductive ProposalResponse where
  | pdf (bytes : List Nat)
  | inputError
  | generationError (detail : String)
deriving DecidableEq, Repr

/-- Embedding of `generate_proposal(report_text, file)`: extract the
content, build the prompt, call `call_gemini_direct`, render the PDF. -/
def generate_proposal (decode : List Nat → Option String) (backend : Backend)
    (render : String → List Nat)
    (report_text : Option String) (file : Option (List Nat)) :
    ProposalResponse :=
  match extractContent decode report_text file with
  | none => .inputError
  | some content =>
      match callResult backend (buildPrompt content) with
      | .allFailed msg => .generationError ("AI Generation Failed: " ++ msg)
      | .success proposal_text =>
          .pdf (generate_pdf_from_text render proposal_text)

/-! ## Outcome classes of the spec taxonomy -/

/-- Outcome classes the spec calls FatalError: any failure other than
rate limiting (429), unknown model (404), or blocked/empty content —
i.e. another HTTP status, or a raised exception. -/
def fatalClass : AttemptResult → Bool
  | .statusOther _ _ => true
  | .exn _ => true
  | _ => false

/-- Recoverable outcome classes of the spec: RateLimited (429),
NotFound (404), and Blocked/Empty (200 without extractable text). -/
def recoverable : AttemptResult → Bool
  | .okNoText => true
  | .status429 => true
  | .status404 => true
  | _ => false

/-- The value `last_error` holds once the loop has run through the whole
candidate list without a success (each iteration overwrites it with the
error of that attempt). -/
def lastErrGo (backend : Backend) (prompt : String) :
    List String → String → Nat → String
  | [], e, _ => e
  | m :: rest, _, k =>
      lastErrGo backend prompt rest (attemptError m (backend k m prompt)) (k + 1)

/-- The Model Selector of the implementation: the priority order is
hard-coded in `call_gemini_direct` as the constant `models`; no
discovered candidate list is consulted. -/
def selectCandidates (_candidates : List String) : List String := models

/-- One string occurs inside another. -/
def strContains (s sub : String) : Prop := ∃ u v, s = u ++ (sub ++ v)

/-- The given strings occur inside `s`, in order and without overlap. -/
def chainInStr (s : String) : List String → Prop
  | [] => True
  | p :: ps => ∃ u v, s = u ++ (p ++ v) ∧ chainInStr v ps

/-- Test backend: the first candidate fails with HTTP 500 (a
FatalError-class outcome in the taxonomy of the spec), every other
candidate succeeds. -/
def fatalThenOkBackend : Backend := fun _ m _ =>
  if m = "gemini-1.5-flash" then .statusOther 500 "Internal Server Error"
  else .ok "RECOVERED"

/-- Test backend: the first candidate is rate limited (429) on every
attempt, every other candidate succeeds. -/
def rateLimitedThenOkBackend : Backend := fun _ m _ =>
  if m = "gemini-1.5-flash" then .status429 else .ok "SECOND"

/-- Test backend: every call is rate limited (429). -/
def allRateLimitedBackend : Backend := fun _ _ _ => .status429

/-- Test backend: every call succeeds with the text "FIRST". -/
def alwaysOkBackend : Backend := fun _ _ _ => .ok "FIRST"

/-- Test decoder standing for a successful utf-8 decode of the uploaded
file, yielding the content "FILE REPORT". -/
def fileDecode : List Nat → Option String := fun _ => some "FILE REPORT"

/-- Test renderer: the byte stream is the code points of the text. -/
def codeRender : String → List Nat := fun s => s.data.map Char.toNat

theorem recoverable_not_ok {r : AttemptResult} (h : recoverable r = true) :
    isOk r = false := by
  cases r <;> simp [recoverable, isOk] at h ⊢

theorem eq_ok_of_isOk {r : AttemptResult} (h : isOk r = true) :
    r = .ok (okText r) := by
  cases r <;> simp [isOk, okText] at h ⊢

/-! ## Structural lemmas about the candidate loop -/

/-- The models actually attempted are an initial segment of the candidate
list, in order. -/
theorem loopGo_trace_take (backend : Backend) (prompt : String) :
    ∀ (l : List String) (e : String) (k : Nat),
      (loopGo backend prompt l e k).1.map Attempt.model
          = l.take (loopGo backend prompt l e k).1.length
      ∧ (loopGo backend prompt l e k).1.length ≤ l.length := by
  intro l
  induction l with
  | nil => intro e k; simp [loopGo]
  | cons m rest ih =>
      intro e k
      cases hok : isOk (backend k m prompt) with
      | true => simp [loopGo, hok]
      | false =>
          have ihh := ih (attemptError m (backend k m prompt)) (k + 1)
          simp only [loopGo, hok, Bool.false_eq_true, if_false,
            List.map_cons, List.length_cons]
          exact ⟨by rw [List.take_succ_cons, ihh.1], Nat.succ_le_succ ihh.2⟩

/-- Every attempt is made with the prompt the loop was given. -/
theorem loopGo_trace_prompt (backend : Backend) (prompt : String) :
    ∀ (l : List String) (e : String) (k : Nat),
      ∀ a ∈ (loopGo backend prompt l e k).1, a.prompt = prompt := by
  intro l
  induction l with
  | nil => intro e k a ha; simp [loopGo] at ha
  | cons m rest ih =>
      intro e k a ha
      cases hok : isOk (backend k m prompt) with
      | true =>
          simp [loopGo, hok] at ha
          subst ha; rfl
      | false =>
          simp only [loopGo, hok, Bool.false_eq_true, if_false,
            List.mem_cons] at ha
          rcases ha with rfl | ha
          · rfl
          · exact ih _ (k + 1) a ha

/-- If the loop returns a success, the trace ends at the succeeding
attempt: every earlier attempt failed, the final attempt returned `ok`
with exactly the returned text, and nothing past it was attempted. -/
theorem loopGo_success_shape (backend : Backend) (prompt t : String) :
    ∀ (l : List String) (e : String) (k : Nat),
      (loopGo backend prompt l e k).2 = .success t →
      ∃ tr m, (loopGo backend prompt l e k).1 = tr ++ [⟨m, prompt⟩]
        ∧ backend (k + tr.length) m prompt = .ok t
        ∧ ∀ j (hj : j < tr.length),
            isOk (backend (k + j) (tr.get ⟨j, hj⟩).model prompt) = false := by
  intro l
  induction l with
  | nil => intro e k h; simp [loopGo] at h
  | cons m rest ih =>
      intro e k h
      cases hok : isOk (backend k m prompt) with
      | true =>
          refine ⟨[], m, ?_, ?_, ?_⟩
          · simp [loopGo, hok]
          · have h2 : CallResult.success (okText (backend k m prompt))
                = CallResult.success t := by
              simpa [loopGo, hok] using h
            simp only [List.length_nil, Nat.add_zero]
            rw [eq_ok_of_isOk hok]
            exact congrArg AttemptResult.ok (CallResult.success.inj h2)
          · intro j hj; cases hj
      | false =>
          have h' : (loopGo backend prompt rest
              (attemptError m (backend k m prompt)) (k + 1)).2
                = .success t := by
            simpa [loopGo, hok] using h
          obtain ⟨tr', m', htr, hb, hfail⟩ := ih _ (k + 1) h'
          refine ⟨⟨m, prompt⟩ :: tr', m', ?_, ?_, ?_⟩
          · simp [loopGo, hok, htr]
          · have hk : k + (tr'.length + 1) = (k + 1) + tr'.length := by omega
            simp only [List.length_cons]
            rw [hk]; exact hb
          · intro j hj
            cases j with
            | zero => simpa using hok
            | succ j =>
                have hj' : j < tr'.length := by
                  simpa [List.length_cons] using hj
                have hk : k + (j + 1) = (k + 1) + j := by omega
                have := hfail j hj'
                simpa [hk, List.get_cons_succ] using this

/-- When every outbound call fails, the loop attempts every candidate in
order and raises the aggregated exception carrying the last error. -/
theorem loopGo_all_fail (backend : Backend) (prompt : String)
    (hok : ∀ k m p, isOk (backend k m p) = false) :
    ∀ (l : List String) (e : String) (k : Nat),
      (loopGo backend prompt l e k).1 = l.map (fun m => ⟨m, prompt⟩)
      ∧ (loopGo backend prompt l e k).2 = .allFailed
          ("All models failed. Last error: " ++ lastErrGo backend prompt l e k) := by
  intro l
  induction l with
  | nil => intro e k; simp [loopGo, lastErrGo]
  | cons m rest ih =>
      intro e k
      have ihh := ih (attemptError m (backend k m prompt)) (k + 1)
      simp only [loopGo, hok k m prompt, Bool.false_eq_true, if_false,
        lastErrGo, List.map_cons]
      exact ⟨by rw [ihh.1], ihh.2⟩

/-- A failed attempt of any class — in particular a FatalError-class one —
makes the loop advance to the next candidate, with `last_error` set to
the diagnostic of the failed attempt. -/
theorem loopGo_advance (backend : Backend) (prompt m : String)
    (rest : List String) (e : String) (k : Nat)
    (hok : isOk (backend k m prompt) = false) :
    loopGo backend prompt (m :: rest) e k =
      (⟨m, prompt⟩ ::
          (loopGo backend prompt rest (attemptError m (backend k m prompt)) (k + 1)).1,
        (loopGo backend prompt rest (attemptError m (backend k m prompt)) (k + 1)).2) := by
  simp [loopGo, hok]

/-! ## Claim theorems -/

/-- C1 counterexample: an HTTP 500 on the first candidate — a
FatalError-class outcome — does not end the invocation: the next
candidate is attempted and its success is returned, contradicting the
claim that a FatalError ends the invocation immediately as a
non-retryable failure. -/
theorem C1_counterexample :
    fatalClass (fatalThenOkBackend 0 "gemini-1.5-flash" "p") = true
    ∧ callResult fatalThenOkBackend "p" = .success "RECOVERED"
    ∧ attempts fatalThenOkBackend "p"
        = [⟨"gemini-1.5-flash", "p"⟩, ⟨"gemini-1.5-pro", "p"⟩] := by
  refine ⟨by decide, by decide, by decide⟩

/-- C1 amended: a FatalError-class outcome on a candidate does not end
the invocation; like every other failure the loop records the diagnostic
as `last_error` and advances to the next candidate, so the invocation
fails only if all candidates fail. -/
theorem C1_fatal_advances (backend : Backend) (prompt m : String)
    (rest : List String) (e : String) (k : Nat)
    (hfatal : fatalClass (backend k m prompt) = true) :
    loopGo backend prompt (m :: rest) e k =
      (⟨m, prompt⟩ ::
          (loopGo backend prompt rest (attemptError m (backend k m prompt)) (k + 1)).1,
        (loopGo backend prompt rest (attemptError m (backend k m prompt)) (k + 1)).2) := by
  apply loopGo_advance
  cases hb : backend k m prompt <;> simp_all [fatalClass, isOk]

/-- C1 amended, witness at the concrete fatal backend. -/
theorem C1_fatal_advances_witness :
    loopGo fatalThenOkBackend "p"
        ("gemini-1.5-flash" :: ["gemini-1.5-pro", "gemini-pro"]) "" 0 =
      (⟨"gemini-1.5-flash", "p"⟩ ::
          (loopGo fatalThenOkBackend "p" ["gemini-1.5-pro", "gemini-pro"]
            (attemptError "gemini-1.5-flash"
              (fatalThenOkBackend 0 "gemini-1.5-flash" "p")) 1).1,
        (loopGo fatalThenOkBackend "p" ["gemini-1.5-pro", "gemini-pro"]
          (attemptError "gemini-1.5-flash"
            (fatalThenOkBackend 0 "gemini-1.5-flash" "p")) 1).2) :=
  C1_fatal_advances fatalThenOkBackend "p" "gemini-1.5-flash"
    ["gemini-1.5-pro", "gemini-pro"] "" 0 (by decide)

/-- C2 counterexample: with the first candidate rate limited on every
attempt and the second always succeeding, the code makes exactly 1
attempt on the first candidate (not the 3 the claim states) before
returning the success of the second. -/
theorem C2_counterexample :
    callResult rateLimitedThenOkBackend "p" = .success "SECOND"
    ∧ ((attempts rateLimitedThenOkBackend "p").map Attempt.model).count
        "gemini-1.5-flash" = 1
    ∧ ((attempts rateLimitedThenOkBackend "p").map Attempt.model).count
        "gemini-1.5-flash" ≠ 3 := by
  refine ⟨by decide, by decide, by decide⟩

/-- C2 amended: a rate-limited candidate is attempted exactly once (there
is no per-candidate retry budget); in the two-candidate scenario the
invocation makes 1 attempt on the first candidate, 1 on the second, and
returns the Success of the second. -/
theorem C2_one_attempt_then_advance (backend : Backend) (prompt t : String)
    (h1 : ∀ k p, backend k "gemini-1.5-flash" p = .status429)
    (h2 : ∀ k p, backend k "gemini-1.5-pro" p = .ok t) :
    attempts backend prompt
        = [⟨"gemini-1.5-flash", prompt⟩, ⟨"gemini-1.5-pro", prompt⟩]
    ∧ callResult backend prompt = .success t := by
  have e1 := h1 0 prompt
  have e2 := h2 1 prompt
  constructor <;>
    simp [attempts, callResult, call_gemini_direct, models, loopGo,
      e1, e2, isOk, okText, attemptError]

/-- C2 amended, witness at the concrete rate-limited backend. -/
theorem C2_one_attempt_then_advance_witness :
    attempts rateLimitedThenOkBackend "p"
        = [⟨"gemini-1.5-flash", "p"⟩, ⟨"gemini-1.5-pro", "p"⟩]
    ∧ callResult rateLimitedThenOkBackend "p" = .success "SECOND" :=
  C2_one_attempt_then_advance rateLimitedThenOkBackend "p" "SECOND"
    (fun _ _ => rfl) (fun _ _ => rfl)

/-- C3: when every call fails with a recoverable class (rate limited,
not found, or blocked/empty), the invocation terminates after exactly
one attempt per candidate — 3 in total — and raises the single
aggregated exception whose message carries the error of the last
attempted candidate. -/
theorem C3_bounded_exhaustion (backend : Backend) (prompt : String)
    (hrec : ∀ k m p, recoverable (backend k m p) = true) :
    attempts backend prompt = models.map (fun m => ⟨m, prompt⟩)
    ∧ (attempts backend prompt).length = 3
    ∧ callResult backend prompt = .allFailed
        ("All models failed. Last error: "
          ++ attemptError "gemini-pro" (backend 2 "gemini-pro" prompt)) := by
  have hok : ∀ k m p, isOk (backend k m p) = false :=
    fun k m p => recoverable_not_ok (hrec k m p)
  have hall := loopGo_all_fail backend prompt hok models "" 0
  refine ⟨hall.1, ?_, ?_⟩
  · rw [show attempts backend prompt = models.map (fun m => ⟨m, prompt⟩)
      from hall.1]
    rfl
  · have h2 := hall.2
    have hle : lastErrGo backend prompt models "" 0
        = attemptError "gemini-pro" (backend 2 "gemini-pro" prompt) := by
      simp [lastErrGo, models]
    rw [hle] at h2
    exact h2

/-- C3 witness: the always-rate-limited backend exhausts all three
candidates and raises the aggregated exception. -/
theorem C3_bounded_exhaustion_witness :
    attempts allRateLimitedBackend "p" = models.map (fun m => ⟨m, "p"⟩)
    ∧ (attempts allRateLimitedBackend "p").length = 3
    ∧ callResult allRateLimitedBackend "p" = .allFailed
        ("All models failed. Last error: "
          ++ attemptError "gemini-pro" (allRateLimitedBackend 2 "gemini-pro" "p")) :=
  C3_bounded_exhaustion allRateLimitedBackend "p" (fun _ _ _ => rfl)

/-- C4: at most one Success is accepted — when the invocation returns a
success, the trace ends at the succeeding attempt (no candidate after it
is attempted), the returned text is exactly that attempt's text, and
every earlier attempt had failed. -/
theorem C4_single_success (backend : Backend) (prompt t : String)
    (h : callResult backend prompt = .success t) :
    ∃ tr m, attempts backend prompt = tr ++ [⟨m, prompt⟩]
      ∧ backend tr.length m prompt = .ok t
      ∧ ∀ j (hj : j < tr.length),
          isOk (backend j (tr.get ⟨j, hj⟩).model prompt) = false := by
  obtain ⟨tr, m, htr, hb, hfail⟩ :=
    loopGo_success_shape backend prompt t models "" 0 h
  refine ⟨tr, m, htr, by simpa using hb, ?_⟩
  intro j hj
  simpa using hfail j hj

/-- C4 witness at the always-succeeding backend. -/
theorem C4_single_success_witness :
    ∃ tr m, attempts alwaysOkBackend "p" = tr ++ [⟨m, "p"⟩]
      ∧ alwaysOkBackend tr.length m "p" = .ok "FIRST"
      ∧ ∀ j (hj : j < tr.length),
          isOk (alwaysOkBackend j (tr.get ⟨j, hj⟩).model "p") = false :=
  C4_single_success alwaysOkBackend "p" "FIRST" rfl

/-- C5 counterexample: with both content sources present (a decodable
uploaded file and non-empty raw text), the request is not rejected — the
handler uses the file, invokes the orchestrator, and returns a PDF. -/
theorem C5_counterexample :
    generate_proposal fileDecode alwaysOkBackend codeRender
        (some "RAW REPORT") (some [0]) = .pdf [70, 73, 82, 83, 84]
    ∧ generate_proposal fileDecode alwaysOkBackend codeRender
        (some "RAW REPORT") (some [0]) ≠ .inputError := by
  refine ⟨by decide, by decide⟩

/-- C5 amended: exactly one content source is used per request, the
uploaded file taking priority over raw text when both are present
(`report_text` is then ignored); non-empty raw text is used only when no
file is uploaded; and when neither source is present the request is
rejected with an input error without any generation call (the result is
`inputError` for every backend). -/
theorem C5_file_priority (decode : List Nat → Option String)
    (backend : Backend) (render : String → List Nat)
    (rt : String) (bs : List Nat) :
    generate_proposal decode backend render (some rt) (some bs)
        = generate_proposal decode backend render none (some bs)
    ∧ extractContent decode (some rt) none
        = (if rt.isEmpty then none else some rt)
    ∧ generate_proposal decode backend render none none = .inputError := by
  refine ⟨rfl, ?_, rfl⟩
  cases h : rt.isEmpty <;> simp [extractContent, truthyStr, h]

/-- C6: the content embedded in the prompt is `content[:10000]` — at most
10000 characters, and the content itself whenever it already fits — and
every outbound attempt downstream carries the built prompt verbatim (no
further truncation). -/
theorem C6_truncation (content : String) (backend : Backend) :
    (pySlice content 10000).length ≤ 10000
    ∧ (content.length ≤ 10000 → pySlice content 10000 = content)
    ∧ buildPrompt content
        = promptHead ++ pySlice content 10000 ++ promptTail
    ∧ ∀ a ∈ attempts backend (buildPrompt content),
        a.prompt = buildPrompt content := by
  refine ⟨?_, ?_, rfl, ?_⟩
  · show (content.data.take 10000).length ≤ 10000
    rw [List.length_take]
    exact Nat.min_le_left _ _
  · intro h
    show (⟨content.data.take 10000⟩ : String) = content
    rw [List.take_of_length_le h]
  · intro a ha
    exact loopGo_trace_prompt backend (buildPrompt content) models "" 0 a ha

/-- C6 witness at a concrete short content and backend. -/
theorem C6_truncation_witness :
    (pySlice "sample report" 10000).length ≤ 10000
    ∧ ("sample report".length ≤ 10000 →
        pySlice "sample report" 10000 = "sample report")
    ∧ buildPrompt "sample report"
        = promptHead ++ pySlice "sample report" 10000 ++ promptTail
    ∧ ∀ a ∈ attempts alwaysOkBackend (buildPrompt "sample report"),
        a.prompt = buildPrompt "sample report" :=
  C6_truncation "sample report" alwaysOkBackend

/-- C7: the implementation's model selection is the constant function
returning the hard-coded `models` order — trivially deterministic in the
input candidate list and idempotent — and that order puts the
"flash"-named candidate first, the "1.5-pro"-named one second, and the
generic "pro"-named one third. -/
theorem C7_selector (input : List String) :
    selectCandidates input = models
    ∧ selectCandidates (selectCandidates input) = selectCandidates input
    ∧ (∀ input2 : List String, selectCandidates input = selectCandidates input2)
    ∧ models = ["gemini-1.5-flash", "gemini-1.5-pro", "gemini-pro"]
    ∧ strContains "gemini-1.5-flash" "flash"
    ∧ strContains "gemini-1.5-pro" "1.5-pro"
    ∧ strContains "gemini-pro" "pro" := by
  refine ⟨rfl, rfl, fun _ => rfl, rfl,
    ⟨"gemini-1.5-", "", by decide⟩,
    ⟨"gemini-", "", by decide⟩,
    ⟨"gemini-", "", by decide⟩⟩

/-- C7 witness at a concrete input list. -/
theorem C7_selector_witness :
    selectCandidates ["other-model"] = models
    ∧ selectCandidates (selectCandidates ["other-model"])
        = selectCandidates ["other-model"]
    ∧ (∀ input2 : List String,
        selectCandidates ["other-model"] = selectCandidates input2)
    ∧ models = ["gemini-1.5-flash", "gemini-1.5-pro", "gemini-pro"]
    ∧ strContains "gemini-1.5-flash" "flash"
    ∧ strContains "gemini-1.5-pro" "1.5-pro"
    ∧ strContains "gemini-pro" "pro" :=
  C7_selector ["other-model"]

set_option maxRecDepth 100000 in
/-- C8: for every content, the prompt is the fixed template with the
truncated content interpolated, it instructs the backend to act as a
professional grant writer and to keep the output text-based (no
markdown), and it lists the six mandated section names in the fixed
order EXECUTIVE SUMMARY, PROJECT BACKGROUND, OBJECTIVES, METHODOLOGY,
BUDGET OVERVIEW, EXPECTED OUTCOMES. -/
theorem C8_prompt_template (content : String) :
    buildPrompt content
        = promptHead ++ pySlice content 10000 ++ promptTail
    ∧ chainInStr (buildPrompt content)
        ["You are a professional grant writer",
         "Keep it strictly text-based (no markdown bold/italic)",
         "EXECUTIVE SUMMARY", "PROJECT BACKGROUND", "OBJECTIVES",
         "METHODOLOGY", "BUDGET OVERVIEW", "EXPECTED OUTCOMES"] := by
  refine ⟨rfl, ?_⟩
  have hd : promptHead
      = "\n    " ++ ("You are a professional grant writer"
        ++ (". \n    Take the following feasibility report and rewrite it into a formal Funding Proposal.\n    "
        ++ ("Keep it strictly text-based (no markdown bold/italic)"
        ++ (" for PDF compatibility.\n    \n    Sections:\n    1. "
        ++ ("EXECUTIVE SUMMARY" ++ ("\n    2. " ++ ("PROJECT BACKGROUND"
        ++ ("\n    3. " ++ ("OBJECTIVES" ++ ("\n    4. " ++ ("METHODOLOGY"
        ++ ("\n    5. " ++ ("BUDGET OVERVIEW" ++ ("\n    6. "
        ++ ("EXPECTED OUTCOMES"
        ++ "\n    \n    REPORT:\n    "))))))))))))))) := by decide
  have hs : buildPrompt content
      = "\n    " ++ ("You are a professional grant writer"
        ++ (". \n    Take the following feasibility report and rewrite it into a formal Funding Proposal.\n    "
        ++ ("Keep it strictly text-based (no markdown bold/italic)"
        ++ (" for PDF compatibility.\n    \n    Sections:\n    1. "
        ++ ("EXECUTIVE SUMMARY" ++ ("\n    2. " ++ ("PROJECT BACKGROUND"
        ++ ("\n    3. " ++ ("OBJECTIVES" ++ ("\n    4. " ++ ("METHODOLOGY"
        ++ ("\n    5. " ++ ("BUDGET OVERVIEW" ++ ("\n    6. "
        ++ ("EXPECTED OUTCOMES" ++ ("\n    \n    REPORT:\n    "
        ++ (pySlice content 10000 ++ promptTail))))))))))))))))) := by
    show promptHead ++ pySlice content 10000 ++ promptTail = _
    rw [hd]
    simp only [String.append_assoc]
  rw [hs]
  exact ⟨"\n    ", _, rfl,
    ". \n    Take the following feasibility report and rewrite it into a formal Funding Proposal.\n    ",
    _, rfl,
    " for PDF compatibility.\n    \n    Sections:\n    1. ", _, rfl,
    "\n    2. ", _, rfl,
    "\n    3. ", _, rfl,
    "\n    4. ", _, rfl,
    "\n    5. ", _, rfl,
    "\n    6. ", _, rfl,
    trivial⟩

/-- C9: the PDF step always hands the renderer the sanitized text; the
sanitized text is the character-wise latin-1 replacement of the input, so
every character of it is in the encodable range, characters already in
the range pass through unchanged, and characters outside it are replaced
by a question mark rather than rejected. -/
theorem C9_latin1_sanitize (render : String → List Nat) (t : String) :
    generate_pdf_from_text render t = render (latin1Sanitize t)
    ∧ (latin1Sanitize t).data = t.data.map sanitizeChar
    ∧ (∀ c ∈ (latin1Sanitize t).data, c.toNat ≤ 255)
    ∧ (∀ c : Char, c.toNat ≤ 255 → sanitizeChar c = c)
    ∧ (∀ c : Char, 255 < c.toNat → sanitizeChar c = '?') := by
  refine ⟨rfl, rfl, ?_, ?_, ?_⟩
  · intro c hc
    obtain ⟨c0, _, rfl⟩ := List.mem_map.mp hc
    by_cases h : c0.toNat ≤ 255
    · simp [sanitizeChar, h]
    · simp only [sanitizeChar, if_neg h]
      decide
  · intro c h
    simp [sanitizeChar, h]
  · intro c h
    have : ¬c.toNat ≤ 255 := by omega
    simp [sanitizeChar, this]

/-- C9 witness at a concrete renderer and a text mixing characters inside
and outside the Latin-1 range. -/
theorem C9_latin1_sanitize_witness :
    generate_pdf_from_text codeRender "a✓" = codeRender (latin1Sanitize "a✓")
    ∧ (latin1Sanitize "a✓").data = "a✓".data.map sanitizeChar
    ∧ (∀ c ∈ (latin1Sanitize "a✓").data, c.toNat ≤ 255)
    ∧ (∀ c : Char, c.toNat ≤ 255 → sanitizeChar c = c)
    ∧ (∀ c : Char, 255 < c.toNat → sanitizeChar c = '?') :=
  C9_latin1_sanitize codeRender "a✓"

/-- C10: every invocation makes at most three outbound generation
requests; the attempted models form an initial segment of the fixed
candidate list, so no candidate is ever attempted more than once. -/
theorem C10_bounded_attempts (backend : Backend) (prompt : String) :
    (attempts backend prompt).length ≤ 3
    ∧ (attempts backend prompt).map Attempt.model
        = models.take (attempts backend prompt).length
    ∧ ∀ m, ((attempts backend prompt).map Attempt.model).count m ≤ 1 := by
  have h := loopGo_trace_take backend prompt models "" 0
  have ha : attempts backend prompt = (loopGo backend prompt models "" 0).1 := rfl
  refine ⟨h.2, h.1, ?_⟩
  intro m
  have hnd : (models.take (attempts backend prompt).length).Nodup :=
    (List.take_sublist _ models).nodup (by decide)
  rw [ha, h.1]
  exact List.nodup_iff_count_le_one.mp hnd m

/-- C10 witness at a concrete backend and prompt. -/
theorem C10_bounded_attempts_witness :
    (attempts allRateLimitedBackend "p").length ≤ 3
    ∧ (attempts allRateLimitedBackend "p").map Attempt.model
        = models.take (attempts allRateLimitedBackend "p").length
    ∧ ∀ m, ((attempts allRateLimitedBackend "p").map Attempt.model).count m ≤ 1 :=
  C10_bounded_attempts allRateLimitedBackend "p"

end Proposal
